import Mathlib

/-!
Verification development for the mightex-slc driver (transport / protocol /
controller / trigger-programmer stack).

The Python sources are shallowly embedded: every fallible operation returns
`Except MErr α`, serial I/O is modelled by an oracle `Wire` (the response the
device would produce for the n-th exchange) together with an explicit trace of
the command strings written to the port, and Python `int` values are `Int`.

Layer map (source file → Lean namespace):
  * `transport.py`  → `Transport`
  * `protocol.py`   → `Protocol`
  * `controller.py` (the legacy serial-direct variant present in the tree)
                    → `Controller` (its `_send_command`-based methods)
  * `trigger_programmer.py` → `TriggerProgrammer` plus the config data model
-/

/-- Error taxonomy of `exceptions.py`: every error kind inherits MightexError,
so "a MightexError" below means any of the four constructors. -/
inductive MErr where
  | connection (m : String)
  | timeout (m : String)
  | command (m : String)
  | validation (m : String)
deriving DecidableEq

deriving instance DecidableEq for Except

/-- `str(exc)` for a MightexError: the message it was raised with. -/
def MErr.msg : MErr → String
  | .connection m => m
  | .timeout m => m
  | .command m => m
  | .validation m => m

/-- Recognise the ValidationError kind. -/
def MErr.isValidation : MErr → Bool
  | .validation _ => true
  | _ => false

/-- Recognise the TimeoutError kind. -/
def MErr.isTimeout : MErr → Bool
  | .timeout _ => true
  | _ => false

/-- Recognise the ConnectionError kind. -/
def MErr.isConnection : MErr → Bool
  | .connection _ => true
  | _ => false

/-- The serial device as an oracle: `resp n` is the raw text the device sends
back for the n-th command written since the trace began; `isOpen` is the
port's open/closed state during the exchange. -/
structure Wire where
  isOpen : Bool
  resp : Nat → String

/-- The trace of command strings written to the port, in order. -/
abbrev Trace := List String

/-- Drop leading whitespace from a character list. -/
def listTrimLeft : List Char → List Char
  | [] => []
  | c :: cs => if c.isWhitespace then listTrimLeft cs else c :: cs

/-- Python `s.strip()`: drop whitespace from both ends. -/
def pyStrip (s : String) : String :=
  ⟨(listTrimLeft (listTrimLeft s.data).reverse).reverse⟩

/-- `pat` occurs as a prefix of some suffix of the list. -/
def listContains (pat : List Char) : List Char → Bool
  | [] => decide (pat = [])
  | c :: cs => pat.isPrefixOf (c :: cs) || listContains pat cs

/-- Python's substring test `pat in s`. -/
def strContains (s pat : String) : Bool :=
  listContains pat.data s.data

/-- Python's `s.startswith(pat)`. -/
def strStartsWith (s pat : String) : Bool :=
  pat.data.isPrefixOf s.data

/-- Whitespace-token splitter: `cur` is the token being built (reversed). -/
def listSplitWsAux : List Char → List Char → List (List Char)
  | [], cur => if cur = [] then [] else [cur.reverse]
  | c :: cs, cur =>
    if c.isWhitespace then
      (if cur = [] then listSplitWsAux cs [] else cur.reverse :: listSplitWsAux cs [])
    else listSplitWsAux cs (c :: cur)

/-- Python `s.split()`: split on whitespace runs, dropping empty pieces. -/
def pySplitWs (s : String) : List String :=
  (listSplitWsAux s.data []).map String.mk

/-- Fuel-driven replacement of `pat` by `rep` (used with non-empty `pat`;
the fuel is the input length, enough for every step to consume a character). -/
def listReplaceAux (pat rep : List Char) : Nat → List Char → List Char
  | _, [] => []
  | 0, s => s
  | Nat.succ n, c :: cs =>
    if pat ≠ [] ∧ pat.isPrefixOf (c :: cs) then
      rep ++ listReplaceAux pat rep n ((c :: cs).drop pat.length)
    else c :: listReplaceAux pat rep n cs

/-- Python `s.replace(pat, rep)` for non-empty `pat`. -/
def pyReplace (s pat rep : String) : String :=
  ⟨listReplaceAux pat.data rep.data s.data.length s.data⟩

/-- Fuel-driven split on a non-empty separator; `cur` is the piece being
built (reversed). -/
def listSplitOnAux (pat : List Char) : Nat → List Char → List Char → List (List Char)
  | _, cur, [] => [cur.reverse]
  | 0, cur, s => [cur.reverse ++ s]
  | Nat.succ n, cur, c :: cs =>
    if pat.isPrefixOf (c :: cs) then
      cur.reverse :: listSplitOnAux pat n [] ((c :: cs).drop pat.length)
    else listSplitOnAux pat n (c :: cur) cs

/-- Python `s.split(sep)` for a non-empty separator. -/
def pySplitOn (s sep : String) : List String :=
  (listSplitOnAux sep.data s.data.length [] s.data).map String.mk

/-- Python `sep.join(pieces)`. -/
def joinSep (sep : String) : List String → String
  | [] => ""
  | [x] => x
  | x :: xs => x ++ sep ++ joinSep sep xs

/-- Digit-string value for `pyInt?`; `none` when empty or not all digits. -/
def pyDigits? (cs : List Char) : Option Nat :=
  if cs = [] then none
  else if cs.all Char.isDigit then
    some (cs.foldl (fun a c => a * 10 + (c.toNat - 48)) 0)
  else none

/-- Python `int(s)` on a decimal literal: optional sign after stripping
whitespace, else a ValueError (`none`). -/
def pyInt? (s : String) : Option Int :=
  match (pyStrip s).data with
  | '-' :: rest => (pyDigits? rest).map (fun n => -(n : Int))
  | '+' :: rest => (pyDigits? rest).map (fun n => (n : Int))
  | cs => (pyDigits? cs).map (fun n => (n : Int))

/-- `SerialTransport.send` (transport.py): requires the port open (else
ConnectionError, nothing written), writes the command, reads and strips the
response; an empty decoded response raises TimeoutError (the command was
already written by then). -/
def Transport.send (w : Wire) (tr : Trace) (cmd : String) :
    Except MErr String × Trace :=
  if w.isOpen then
    let response := pyStrip (w.resp tr.length)
    let tr' := tr ++ [cmd]
    if response = "" then
      (Except.error (MErr.timeout ("No response from controller for '" ++ cmd ++ "'")), tr')
    else
      (Except.ok response, tr')
  else
    (Except.error (MErr.connection "Serial port not open — call open() first."), tr)

/-- `_check_ack` (protocol.py): error-code discrimination on a response. -/
def Protocol.checkAck (response cmd : String) : Except MErr String :=
  if strStartsWith response "#!" then
    Except.error (MErr.command ("Controller error for '" ++ cmd ++ "': " ++ response))
  else if strStartsWith response "#?" then
    Except.error (MErr.command ("Invalid argument for '" ++ cmd ++ "': " ++ response))
  else if strContains response "is not defined" then
    Except.error (MErr.command ("Unknown command '" ++ cmd ++ "': " ++ response))
  else
    Except.ok response

/-- `_expect_ack` (protocol.py): `_check_ack`, then the response must contain
the `##` success marker. -/
def Protocol.expectAck (response cmd : String) : Except MErr Unit :=
  match Protocol.checkAck response cmd with
  | Except.error e => Except.error e
  | Except.ok _ =>
    if strContains response "##" then Except.ok ()
    else
      Except.error (MErr.command
        ("Expected '##' acknowledgement for '" ++ cmd ++ "', got: '" ++ response ++ "'"))

/-- `SLCProtocol._cmd` (protocol.py): transport send, then `_check_ack`. -/
def Protocol.cmd (w : Wire) (tr : Trace) (c : String) : Except MErr String × Trace :=
  match Transport.send w tr c with
  | (Except.error e, tr') => (Except.error e, tr')
  | (Except.ok r, tr') => (Protocol.checkAck r c, tr')

/-- `SLCProtocol._cmd_ack` (protocol.py): transport send, then `_expect_ack`. -/
def Protocol.cmdAck (w : Wire) (tr : Trace) (c : String) : Except MErr Unit × Trace :=
  match Transport.send w tr c with
  | (Except.error e, tr') => (Except.error e, tr')
  | (Except.ok r, tr') => (Protocol.expectAck r c, tr')

/-- Sequence a pre-send validation before an action: a validation failure
leaves the trace untouched (no bytes reach the wire). -/
def vseq {α : Type} (v : Except MErr Unit) (tr : Trace)
    (k : Unit → Except MErr α × Trace) : Except MErr α × Trace :=
  match v with
  | Except.error e => (Except.error e, tr)
  | Except.ok _ => k ()

/-- `_validate_channel` (protocol.py): channel 1–4. -/
def Protocol.validateChannel (channel : Int) : Except MErr Unit :=
  if 1 ≤ channel ∧ channel ≤ 4 then Except.ok ()
  else Except.error (MErr.validation ("Channel must be 1-4, got " ++ toString channel))

/-- `_validate_current` (protocol.py): `0 ≤ current_ma ≤ max_ma`. -/
def Protocol.validateCurrent (current_ma max_ma : Int) (label : String) :
    Except MErr Unit :=
  if 0 ≤ current_ma ∧ current_ma ≤ max_ma then Except.ok ()
  else
    Except.error (MErr.validation
      (label ++ " must be 0-" ++ toString max_ma ++ " mA, got " ++ toString current_ma))

/-- `_validate_mode` (protocol.py): the Mode enum holds 0,1,2,3 only. -/
def Protocol.validateMode (mode : Int) : Except MErr Unit :=
  if mode = 0 ∨ mode = 1 ∨ mode = 2 ∨ mode = 3 then Except.ok ()
  else Except.error (MErr.validation ("Invalid mode " ++ toString mode))

/-- `_validate_step` (protocol.py): step 0–127. -/
def Protocol.validateStep (step : Int) : Except MErr Unit :=
  if 0 ≤ step ∧ step ≤ 127 then Except.ok ()
  else Except.error (MErr.validation ("Step must be 0-127, got " ++ toString step))

/-- `_validate_duration` (protocol.py): duration 0–99999999 µs. -/
def Protocol.validateDuration (duration_us : Int) : Except MErr Unit :=
  if 0 ≤ duration_us ∧ duration_us ≤ 99999999 then Except.ok ()
  else
    Except.error (MErr.validation
      ("Duration must be 0-99999999 µs, got " ++ toString duration_us))

/-- `_validate_repeat` (protocol.py): repeat ≥ 0. -/
def Protocol.validateRepeat (repeat_ : Int) : Except MErr Unit :=
  if 0 ≤ repeat_ then Except.ok ()
  else Except.error (MErr.validation ("Repeat must be >= 0, got " ++ toString repeat_))

/-- LED operating modes (protocol.py `Mode`). -/
inductive Mode where
  | DISABLE
  | NORMAL
  | STROBE
  | TRIGGER
deriving DecidableEq

/-- The integer value of a Mode enum member. -/
def Mode.toInt : Mode → Int
  | .DISABLE => 0
  | .NORMAL => 1
  | .STROBE => 2
  | .TRIGGER => 3

/-- `Mode(n)` in Python: `none` models the ValueError on an out-of-enum value. -/
def Mode.ofInt? : Int → Option Mode
  | 0 => some .DISABLE
  | 1 => some .NORMAL
  | 2 => some .STROBE
  | 3 => some .TRIGGER
  | _ => none

/-- `mode.name` of the Mode enum member. -/
def Mode.enumName : Mode → String
  | .DISABLE => "DISABLE"
  | .NORMAL => "NORMAL"
  | .STROBE => "STROBE"
  | .TRIGGER => "TRIGGER"

/-- Trigger edge polarity (protocol.py `TriggerPolarity`). -/
inductive TriggerPolarity where
  | RISING
  | FALLING
deriving DecidableEq

/-- `int(polarity)`. -/
def TriggerPolarity.toInt : TriggerPolarity → Int
  | .RISING => 0
  | .FALLING => 1

/-- `_parse_mode` (protocol.py): strip `#`, parse an integer, map into Mode;
anything else is a CommandError. -/
def Protocol.parseMode (response : String) (channel : Int) : Except MErr Mode :=
  let modeStr := pyStrip (pyReplace response "#" "")
  match pyInt? modeStr with
  | none =>
    Except.error (MErr.command
      ("Unexpected mode response for channel " ++ toString channel ++ ": '" ++ response ++ "'"))
  | some n =>
    match Mode.ofInt? n with
    | none =>
      Except.error (MErr.command
        ("Unexpected mode response for channel " ++ toString channel ++ ": '" ++ response ++ "'"))
    | some m => Except.ok m

/-- `SLCProtocol.get_mode`. -/
def Protocol.get_mode (w : Wire) (tr : Trace) (channel : Int) :
    Except MErr Mode × Trace :=
  vseq (Protocol.validateChannel channel) tr (fun _ =>
    match Protocol.cmd w tr ("?MODE " ++ toString channel) with
    | (Except.error e, tr') => (Except.error e, tr')
    | (Except.ok r, tr') => (Protocol.parseMode r channel, tr'))

/-- `SLCProtocol.set_mode`. -/
def Protocol.set_mode (w : Wire) (tr : Trace) (channel mode : Int) :
    Except MErr Unit × Trace :=
  vseq (Protocol.validateChannel channel) tr (fun _ =>
    vseq (Protocol.validateMode mode) tr (fun _ =>
      Protocol.cmdAck w tr ("MODE " ++ toString channel ++ " " ++ toString mode)))

/-- `SLCProtocol.set_normal_params`: both currents against the NORMAL ceiling
(1000 mA), then the cross-field set ≤ max rule, then the NORMAL command. -/
def Protocol.set_normal_params (w : Wire) (tr : Trace)
    (channel max_current_ma set_current_ma : Int) : Except MErr Unit × Trace :=
  vseq (Protocol.validateChannel channel) tr (fun _ =>
    vseq (Protocol.validateCurrent max_current_ma 1000 "max_current_ma") tr (fun _ =>
      vseq (Protocol.validateCurrent set_current_ma 1000 "set_current_ma") tr (fun _ =>
        if set_current_ma > max_current_ma then
          (Except.error (MErr.validation
            ("set_current_ma (" ++ toString set_current_ma ++
             ") cannot exceed max_current_ma (" ++ toString max_current_ma ++ ")")), tr)
        else
          Protocol.cmdAck w tr
            ("NORMAL " ++ toString channel ++ " " ++ toString max_current_ma ++ " " ++
             toString set_current_ma))))

/-- `SLCProtocol.set_current`: quick-set against the NORMAL ceiling (1000 mA). -/
def Protocol.set_current (w : Wire) (tr : Trace) (channel current_ma : Int) :
    Except MErr Unit × Trace :=
  vseq (Protocol.validateChannel channel) tr (fun _ =>
    vseq (Protocol.validateCurrent current_ma 1000 "current") tr (fun _ =>
      Protocol.cmdAck w tr ("CURRENT " ++ toString channel ++ " " ++ toString current_ma)))

/-- `SLCProtocol.set_strobe_params`: max current against the pulsed ceiling
(3500 mA), repeat ≥ 0. -/
def Protocol.set_strobe_params (w : Wire) (tr : Trace)
    (channel max_current_ma repeat_ : Int) : Except MErr Unit × Trace :=
  vseq (Protocol.validateChannel channel) tr (fun _ =>
    vseq (Protocol.validateCurrent max_current_ma 3500 "max_current_ma") tr (fun _ =>
      vseq (Protocol.validateRepeat repeat_) tr (fun _ =>
        Protocol.cmdAck w tr
          ("STROBE " ++ toString channel ++ " " ++ toString max_current_ma ++ " " ++
           toString repeat_))))

/-- `SLCProtocol.set_strobe_step`: step 0–127, current against the pulsed
ceiling, duration bounded. -/
def Protocol.set_strobe_step (w : Wire) (tr : Trace)
    (channel step current_ma duration_us : Int) : Except MErr Unit × Trace :=
  vseq (Protocol.validateChannel channel) tr (fun _ =>
    vseq (Protocol.validateStep step) tr (fun _ =>
      vseq (Protocol.validateCurrent current_ma 3500 "current_ma") tr (fun _ =>
        vseq (Protocol.validateDuration duration_us) tr (fun _ =>
          Protocol.cmdAck w tr
            ("STRP " ++ toString channel ++ " " ++ toString step ++ " " ++
             toString current_ma ++ " " ++ toString duration_us)))))

/-- `SLCProtocol.set_trigger_params`: max current against the pulsed ceiling. -/
def Protocol.set_trigger_params (w : Wire) (tr : Trace)
    (channel max_current_ma : Int) (polarity : TriggerPolarity) :
    Except MErr Unit × Trace :=
  vseq (Protocol.validateChannel channel) tr (fun _ =>
    vseq (Protocol.validateCurrent max_current_ma 3500 "max_current_ma") tr (fun _ =>
      Protocol.cmdAck w tr
        ("TRIGGER " ++ toString channel ++ " " ++ toString max_current_ma ++ " " ++
         toString polarity.toInt)))

/-- `SLCProtocol.set_trigger_step`: same shape as the strobe step. -/
def Protocol.set_trigger_step (w : Wire) (tr : Trace)
    (channel step current_ma duration_us : Int) : Except MErr Unit × Trace :=
  vseq (Protocol.validateChannel channel) tr (fun _ =>
    vseq (Protocol.validateStep step) tr (fun _ =>
      vseq (Protocol.validateCurrent current_ma 3500 "current_ma") tr (fun _ =>
        vseq (Protocol.validateDuration duration_us) tr (fun _ =>
          Protocol.cmdAck w tr
            ("TRIGP " ++ toString channel ++ " " ++ toString step ++ " " ++
             toString current_ma ++ " " ++ toString duration_us)))))

/-- Sequence two steps of a multi-step controller operation: a failed step
returns its error and trace, aborting the remainder; a successful step hands
its trace to the rest of the sequence. -/
def pseq (step : Except MErr Unit × Trace) (k : Trace → Except MErr Unit × Trace) :
    Except MErr Unit × Trace :=
  match step with
  | (Except.error e, tr) => (Except.error e, tr)
  | (Except.ok _, tr) => k tr

/-- Modelled from the spec: `MightexSLC.set_trigger_follower` is referenced by
`program_channel` (trigger_programmer.py) and by the test-suite, but the
method is absent from the source tree — the `controller.py` present is a
legacy serial-direct variant that predates the transport/protocol stack and
does not define it.  Spec §4.3: the exact 5-step sequence, in order, each
step's failure aborting the remainder: `MODE ch DISABLE`; `TRIGGER ch max
polarity`; trigger step 0 with the 9999 µs follower sentinel; trigger step 1
as the `(0,0)` end-of-profile terminator; `MODE ch TRIGGER`. -/
def Controller.set_trigger_follower (w : Wire) (tr : Trace)
    (channel current_ma max_current_ma : Int) (polarity : TriggerPolarity) :
    Except MErr Unit × Trace :=
  pseq (Protocol.set_mode w tr channel 0) (fun tr1 =>
  pseq (Protocol.set_trigger_params w tr1 channel max_current_ma polarity) (fun tr2 =>
  pseq (Protocol.set_trigger_step w tr2 channel 0 current_ma 9999) (fun tr3 =>
  pseq (Protocol.set_trigger_step w tr3 channel 1 0 0) (fun tr4 =>
  Protocol.set_mode w tr4 channel 3))))

/-- Validated per-channel configuration (trigger_programmer.py `ChannelConfig`). -/
structure ChannelConfig where
  channel : Int
  name : String
  wavelength_nm : Int
  band : String
  current_ma : Int
  max_current_ma : Int
  polarity : TriggerPolarity
deriving DecidableEq

/-- `ChannelConfig.label`: `CH<ch> <name> (<wavelength> nm)`. -/
def ChannelConfig.label (c : ChannelConfig) : String :=
  "CH" ++ toString c.channel ++ " " ++ c.name ++ " (" ++ toString c.wavelength_nm ++ " nm)"

/-- Stable ascending insertion by channel number: `c` goes before the first
element with a key not smaller than its own. -/
def insertSorted (c : ChannelConfig) : List ChannelConfig → List ChannelConfig
  | [] => [c]
  | x :: xs =>
    if c.channel ≤ x.channel then c :: x :: xs else x :: insertSorted c xs

/-- Python `channels.sort(key=lambda c: c.channel)`: a stable ascending sort
by channel number (stable insertion sort is extensionally that sort). -/
def sortByChannel : List ChannelConfig → List ChannelConfig
  | [] => []
  | c :: cs => insertSorted c (sortByChannel cs)

/-- Outcome of a program/verify operation on one channel. -/
structure ChannelResult where
  channel_config : ChannelConfig
  success : Bool
  message : String
deriving DecidableEq

/-- Aggregate outcome of `program_all` / `verify_all`. -/
structure ProgramReport where
  results : List ChannelResult
deriving DecidableEq

/-- `ProgramReport.all_ok`: AND over the per-channel successes. -/
def ProgramReport.all_ok (r : ProgramReport) : Bool :=
  r.results.all (fun x => x.success)

/-- `sum(1 for r in results if r.success)`. -/
def ProgramReport.passed (r : ProgramReport) : Nat :=
  (r.results.filter (fun x => x.success)).length

/-- `ProgramReport.summary`: `<passed>/<total> channels OK|FAILED`. -/
def ProgramReport.summary (r : ProgramReport) : String :=
  toString r.passed ++ "/" ++ toString r.results.length ++ " channels " ++
    (if r.all_ok then "OK" else "FAILED")

/-- `program_channel` (trigger_programmer.py): run the trigger-follower
sequence; a MightexError becomes a failure ChannelResult instead of
propagating. -/
def TriggerProgrammer.program_channel (w : Wire) (tr : Trace) (ch : ChannelConfig) :
    ChannelResult × Trace :=
  match Controller.set_trigger_follower w tr ch.channel ch.current_ma ch.max_current_ma
      ch.polarity with
  | (Except.ok _, tr') =>
    (⟨ch, true, ch.label ++ " → TRIGGER follower, " ++ toString ch.current_ma ++ " mA"⟩, tr')
  | (Except.error e, tr') =>
    (⟨ch, false, ch.label ++ " → FAILED: " ++ e.msg⟩, tr')

/-- `program_all` (trigger_programmer.py): program every channel in config
order, appending one result per channel, never aborting the batch. -/
def TriggerProgrammer.program_all (w : Wire) (tr : Trace) :
    List ChannelConfig → ProgramReport × Trace
  | [] => (⟨[]⟩, tr)
  | c :: rest =>
    let pr := TriggerProgrammer.program_channel w tr c
    let rest' := TriggerProgrammer.program_all w pr.2 rest
    (⟨pr.1 :: rest'.1.results⟩, rest'.2)

/-- The tail of `verify_channel` from the `?TRIGP` profile query on: `errs` are
the mismatches accumulated so far.  The profile response (stripped of `#`)
must contain the decimal text of the expected current.  Python `repr` of the
raw response is modelled as surrounding quotes. -/
def TriggerProgrammer.verifyProfile (w : Wire) (tr : Trace) (ch : ChannelConfig)
    (errs : List String) : List String × Trace :=
  match Protocol.cmd w tr ("?TRIGP " ++ toString ch.channel) with
  | (Except.error e, tr') => (errs ++ ["query failed: " ++ e.msg], tr')
  | (Except.ok pr, tr') =>
    let clean := pyStrip (pyReplace pr "#" "")
    if strContains clean (toString ch.current_ma) then (errs, tr')
    else
      (errs ++ ["trigger profile does not contain expected current (" ++
        toString ch.current_ma ++ " mA): '" ++ pr ++ "'"], tr')

/-- Build `verify_channel`'s final ChannelResult from the accumulated errors. -/
def TriggerProgrammer.verifyResult (ch : ChannelConfig) (errors : List String) :
    ChannelResult :=
  if errors ≠ [] then
    ⟨ch, false, ch.label ++ " → VERIFY FAILED: " ++ joinSep "; " errors⟩
  else
    ⟨ch, true, ch.label ++ " → verified OK"⟩

/-- `verify_channel` (trigger_programmer.py).  The `try` block covers all
three queries, so a MightexError raised by one query skips the queries after
it while keeping the mismatches accumulated before it; the error is appended
as one more accumulated error and the function still returns a ChannelResult.
The `int(parts[0]) / int(parts[1])` calls on a `?TRIGGER` response with ≥ 2
non-numeric fields raise ValueError, which `except MightexError` does not
catch — that one path escapes, modelled as the `Except.error` case. -/
def TriggerProgrammer.verify_channel (w : Wire) (tr : Trace) (ch : ChannelConfig) :
    Except String ChannelResult × Trace :=
  match Protocol.get_mode w tr ch.channel with
  | (Except.error e, tr1) =>
    (Except.ok (TriggerProgrammer.verifyResult ch ["query failed: " ++ e.msg]), tr1)
  | (Except.ok mode, tr1) =>
    let errs0 :=
      if mode ≠ Mode.TRIGGER then ["mode is " ++ mode.enumName ++ ", expected TRIGGER"]
      else []
    match Protocol.cmd w tr1 ("?TRIGGER " ++ toString ch.channel) with
    | (Except.error e, tr2) =>
      (Except.ok (TriggerProgrammer.verifyResult ch (errs0 ++ ["query failed: " ++ e.msg])), tr2)
    | (Except.ok r, tr2) =>
      match pySplitWs (pyReplace r "#" "") with
      | p0 :: p1 :: _ =>
        match pyInt? p0, pyInt? p1 with
        | some actual_imax, some actual_polarity =>
          let errs1 := errs0 ++
            (if actual_imax ≠ ch.max_current_ma then
              ["Imax is " ++ toString actual_imax ++ " mA, expected " ++
               toString ch.max_current_ma ++ " mA"]
            else [])
          let errs2 := errs1 ++
            (if actual_polarity ≠ ch.polarity.toInt then
              ["polarity is " ++ toString actual_polarity ++ ", expected " ++
               toString ch.polarity.toInt ++ " (" ++
               (if ch.polarity = TriggerPolarity.RISING then "rising" else "falling") ++ ")"]
            else [])
          let (errs3, tr3) := TriggerProgrammer.verifyProfile w tr2 ch errs2
          (Except.ok (TriggerProgrammer.verifyResult ch errs3), tr3)
        | _, _ =>
          (Except.error "ValueError: invalid literal for int()", tr2)
      | _ =>
        let errs2 := errs0 ++ ["could not parse ?TRIGGER response: '" ++ r ++ "'"]
        let (errs3, tr3) := TriggerProgrammer.verifyProfile w tr2 ch errs2
        (Except.ok (TriggerProgrammer.verifyResult ch errs3), tr3)

/-- Device information record (protocol.py `DeviceInfo`). -/
structure DeviceInfo where
  firmware_version : String
  module_number : String
  serial_number : String
deriving DecidableEq

/-- Python `response.split(marker)[1].split()[0]`: the first whitespace token
of the text between the first and the second occurrence of `marker`; `none`
models the IndexError on either subscription. -/
def extractTok (response marker : String) : Option String :=
  match (pySplitOn response marker).drop 1 with
  | [] => none
  | seg :: _ => (pySplitWs seg).head?

/-- Serial-number step of `DeviceInfo.from_response` (third guarded
extraction; an IndexError here keeps the fields already assigned). -/
def DeviceInfo.fromStep3 (response fw md : String) : DeviceInfo :=
  if strContains response "Serial No.:" then
    match extractTok response "Serial No.:" with
    | none => ⟨fw, md, "Unknown"⟩
    | some sn => ⟨fw, md, sn⟩
  else ⟨fw, md, "Unknown"⟩

/-- Module-number step of `DeviceInfo.from_response` (second guarded
extraction; an IndexError here keeps the firmware already assigned and leaves
the rest at the sentinel). -/
def DeviceInfo.fromStep2 (response fw : String) : DeviceInfo :=
  if strContains response "Module No.:" then
    match extractTok response "Module No.:" with
    | none => ⟨fw, "Unknown", "Unknown"⟩
    | some md => DeviceInfo.fromStep3 response fw md
  else DeviceInfo.fromStep3 response fw "Unknown"

/-- `DeviceInfo.from_response` (protocol.py): best-effort parse of the
DEVICEINFO line; each field defaults to "Unknown" unless its marker is
present and yields a token, and the one `try` block makes the first
IndexError abandon the remaining extractions without raising. -/
def DeviceInfo.from_response (response : String) : DeviceInfo :=
  if strContains response "Driver:" then
    match extractTok response "Driver:" with
    | none => ⟨"Unknown", "Unknown", "Unknown"⟩
    | some fw => DeviceInfo.fromStep2 response fw
  else DeviceInfo.fromStep2 response "Unknown"

/-- A raw YAML scalar as `load_config` sees it after `yaml.safe_load`: the
`isinstance` checks in the source distinguish exactly string / int / bool /
missing / any other shape.  (Python `bool` is an `int` subclass, so a YAML
boolean passes `isinstance(x, int)` — see `FVal.asPyInt`.) -/
inductive FVal where
  | missing
  | str (s : String)
  | int (n : Int)
  | boolv (b : Bool)
  | other
deriving DecidableEq

/-- `isinstance(val, int)` with the value it denotes: a Python `bool` is an
`int` (True = 1, False = 0). -/
def FVal.asPyInt : FVal → Option Int
  | .int n => some n
  | .boolv b => some (if b then 1 else 0)
  | _ => none

/-- One raw channel entry of the `channels` mapping (`data.get(key)` per
field; `missing` models an absent key). -/
structure RawChannelData where
  name : FVal
  band : FVal
  wavelength_nm : FVal
  current_ma : FVal
  max_current_ma : FVal
  polarity : FVal
deriving DecidableEq

/-- The raw YAML document shape that `load_config` consumes.  The `channels`
mapping is modelled as its key/value pairs in document order, with keys
already integer-converted (a key `int()` cannot convert raises, i.e. the
document is rejected); a missing or non-mapping `channels` value is modelled
by the empty list, which the source likewise rejects. -/
structure RawConfig where
  port : FVal
  store : FVal
  channels : List (Int × RawChannelData)
deriving DecidableEq

/-- Top-level configuration (trigger_programmer.py `TriggerConfig`). -/
structure TriggerConfig where
  port : String
  store : Bool
  channels : List ChannelConfig
deriving DecidableEq

/-- `_require_positive_int(data, key, channel)`. -/
def TriggerProgrammer.requirePositiveInt (v : FVal) : Except MErr Int :=
  match v.asPyInt with
  | some n => if n > 0 then Except.ok n else Except.error (MErr.validation "must be a positive integer")
  | none => Except.error (MErr.validation "must be a positive integer")

/-- `_require_non_negative_int(data, key, channel)`. -/
def TriggerProgrammer.requireNonNegativeInt (v : FVal) : Except MErr Int :=
  match v.asPyInt with
  | some n => if n ≥ 0 then Except.ok n else Except.error (MErr.validation "must be a non-negative integer")
  | none => Except.error (MErr.validation "must be a non-negative integer")

/-- `_parse_channel` (trigger_programmer.py): per-channel validation in source
order — channel range, mapping shape, name, band (default ""), wavelength,
currents, the two cross-field rules, then polarity (default "rising"). -/
def TriggerProgrammer.parseChannel (channel : Int) (d : RawChannelData) :
    Except MErr ChannelConfig :=
  if ¬(1 ≤ channel ∧ channel ≤ 4) then
    Except.error (MErr.validation ("Channel must be 1-4, got " ++ toString channel))
  else
    match d.name with
    | FVal.str name =>
      if name = "" then Except.error (MErr.validation "name must be a non-empty string")
      else
        match (match d.band with
               | FVal.missing => Except.ok ""
               | FVal.str b => Except.ok b
               | _ => Except.error (MErr.validation "band must be a string")) with
        | Except.error e => Except.error e
        | Except.ok band =>
          match TriggerProgrammer.requirePositiveInt d.wavelength_nm with
          | Except.error e => Except.error e
          | Except.ok wavelength_nm =>
            match TriggerProgrammer.requireNonNegativeInt d.current_ma with
            | Except.error e => Except.error e
            | Except.ok current_ma =>
              match TriggerProgrammer.requireNonNegativeInt d.max_current_ma with
              | Except.error e => Except.error e
              | Except.ok max_current_ma =>
                if current_ma > max_current_ma then
                  Except.error (MErr.validation
                    ("current_ma (" ++ toString current_ma ++ ") exceeds max_current_ma (" ++
                     toString max_current_ma ++ ")"))
                else if max_current_ma > 3500 then
                  Except.error (MErr.validation
                    ("max_current_ma (" ++ toString max_current_ma ++
                     ") exceeds pulsed-mode limit (3500 mA)"))
                else
                  match (match d.polarity with
                         | FVal.missing => Except.ok TriggerPolarity.RISING
                         | FVal.str "rising" => Except.ok TriggerPolarity.RISING
                         | FVal.str "falling" => Except.ok TriggerPolarity.FALLING
                         | _ => Except.error (MErr.validation "polarity must be rising or falling")) with
                  | Except.error e => Except.error e
                  | Except.ok polarity =>
                    Except.ok ⟨channel, name, wavelength_nm, band, current_ma,
                               max_current_ma, polarity⟩
    | _ => Except.error (MErr.validation "name must be a non-empty string")

/-- The `for ch_key, ch_data in raw_channels.items()` loop: the first
ValidationError propagates out of `load_config` unhandled. -/
def TriggerProgrammer.parseChannels :
    List (Int × RawChannelData) → Except MErr (List ChannelConfig)
  | [] => Except.ok []
  | (k, d) :: rest =>
    match TriggerProgrammer.parseChannel k d with
    | Except.error e => Except.error e
    | Except.ok c =>
      match TriggerProgrammer.parseChannels rest with
      | Except.error e => Except.error e
      | Except.ok cs => Except.ok (c :: cs)

/-- `load_config` (trigger_programmer.py), from the already-deserialised
document: top-level `port` (non-empty string) and `store` (boolean, default
true) checks, a non-empty `channels` mapping, per-channel parsing, then
`channels.sort(key=lambda c: c.channel)`. -/
def TriggerProgrammer.load_config (raw : RawConfig) : Except MErr TriggerConfig :=
  match raw.port with
  | FVal.str port =>
    if port = "" then
      Except.error (MErr.validation "Config must specify a non-empty port string")
    else
      match (match raw.store with
             | FVal.missing => Except.ok true
             | FVal.boolv b => Except.ok b
             | _ => Except.error (MErr.validation "store must be a boolean")) with
      | Except.error e => Except.error e
      | Except.ok store =>
        if raw.channels = [] then
          Except.error (MErr.validation "Config must contain a non-empty channels mapping")
        else
          match TriggerProgrammer.parseChannels raw.channels with
          | Except.error e => Except.error e
          | Except.ok channels =>
            Except.ok ⟨port, store,
              sortByChannel channels⟩
  | _ => Except.error (MErr.validation "Config must specify a non-empty port string")

/-- `MightexSLC._send_command` of the legacy serial-direct `controller.py` in
the tree: requires the port open, writes the command, reads whatever is
waiting, strips it, then runs the same three error checks as the protocol
layer (note: no empty-response timeout check at this layer). -/
def Controller.sendCommand (w : Wire) (tr : Trace) (cmd : String) :
    Except MErr String × Trace :=
  if w.isOpen then
    let response := pyStrip (w.resp tr.length)
    let tr' := tr ++ [cmd]
    if strStartsWith response "#!" then
      (Except.error (MErr.command ("Controller error for '" ++ cmd ++ "': " ++ response)), tr')
    else if strStartsWith response "#?" then
      (Except.error (MErr.command ("Invalid argument for '" ++ cmd ++ "': " ++ response)), tr')
    else if strContains response "is not defined" then
      (Except.error (MErr.command ("Unknown command '" ++ cmd ++ "': " ++ response)), tr')
    else
      (Except.ok response, tr')
  else
    (Except.error (MErr.connection "Serial port not open — call connect() first."), tr)

/-- `_validate_channel` of the legacy `controller.py`: channel 1–4. -/
def Controller.validateChannel (channel : Int) : Except MErr Unit :=
  if 1 ≤ channel ∧ channel ≤ 4 then Except.ok ()
  else Except.error (MErr.validation ("Channel must be 1–4, got " ++ toString channel))

/-- `MightexSLC.set_strobe_step` (controller.py, lines 361–374): validates the
channel only — step, current and duration go to the wire unchecked — and
returns whether the response contains `##`. -/
def Controller.set_strobe_step (w : Wire) (tr : Trace)
    (channel step current_ma duration_us : Int) : Except MErr Bool × Trace :=
  match Controller.validateChannel channel with
  | Except.error e => (Except.error e, tr)
  | Except.ok _ =>
    match Controller.sendCommand w tr
        ("STRP " ++ toString channel ++ " " ++ toString step ++ " " ++
         toString current_ma ++ " " ++ toString duration_us) with
    | (Except.error e, tr') => (Except.error e, tr')
    | (Except.ok r, tr') => (Except.ok (strContains r "##"), tr')

/-- `MightexSLC.set_trigger_step` (controller.py, lines 390–400): validates
the channel only, then sends the TRIGP command. -/
def Controller.set_trigger_step (w : Wire) (tr : Trace)
    (channel step current_ma duration_us : Int) : Except MErr Bool × Trace :=
  match Controller.validateChannel channel with
  | Except.error e => (Except.error e, tr)
  | Except.ok _ =>
    match Controller.sendCommand w tr
        ("TRIGP " ++ toString channel ++ " " ++ toString step ++ " " ++
         toString current_ma ++ " " ++ toString duration_us) with
    | (Except.error e, tr') => (Except.error e, tr')
    | (Except.ok r, tr') => (Except.ok (strContains r "##"), tr')

/-- Connection state of a `SerialTransport`: `ser` is the handle currently
held in `self._ser` (by identity), `openIds` the OS-level serial handles that
are open, `nextId` the supply of fresh handles — `serial.Serial(...)` always
constructs and opens a new one. -/
structure TState where
  ser : Option Nat
  openIds : List Nat
  nextId : Nat
deriving DecidableEq

/-- `SerialTransport.open` (transport.py, success path): unconditionally
constructs a new `serial.Serial` — a fresh open OS handle — and stores it in
`self._ser`.  There is no already-open guard, and the handle previously held
is not closed. -/
def Transport.openPort (s : TState) : TState :=
  { ser := some s.nextId, openIds := s.nextId :: s.openIds, nextId := s.nextId + 1 }

/-- `SerialTransport.is_open`: a handle is held and it is open. -/
def Transport.isOpenSt (s : TState) : Bool :=
  match s.ser with
  | some h => s.openIds.contains h
  | none => false

/-- `SerialTransport.close`: closes the held handle if it is open; the
reference in `self._ser` stays. -/
def Transport.closePort (s : TState) : TState :=
  match s.ser with
  | some h =>
    if s.openIds.contains h then { s with openIds := s.openIds.filter (fun x => x ≠ h) }
    else s
  | none => s

/-- `MightexSLC.connect` of the legacy `controller.py` (success path): always
constructs a fresh serial handle — no already-connected guard — and then
sends `ECHOOFF` over it. -/
def Controller.connect (s : TState) (tr : Trace) : TState × Trace :=
  (Transport.openPort s, tr ++ ["ECHOOFF"])

/-- Whether an operation outcome is a raised ValidationError. -/
def isValidationResult {α : Type} : Except MErr α → Bool
  | Except.error (MErr.validation _) => true
  | _ => false

/-- Whether an operation outcome is a raised TimeoutError. -/
def isTimeoutResult {α : Type} : Except MErr α → Bool
  | Except.error (MErr.timeout _) => true
  | _ => false

/-- Whether an operation outcome is a raised ConnectionError. -/
def isConnectionResult {α : Type} : Except MErr α → Bool
  | Except.error (MErr.connection _) => true
  | _ => false

/-- Whether an operation outcome is a raised CommandError. -/
def isCommandResult {α : Type} : Except MErr α → Bool
  | Except.error (MErr.command _) => true
  | _ => false

/-- A device that acknowledges every command (the test fixtures' default
`##` response, already stripped). -/
def ackW : Wire := ⟨true, fun _ => "##"⟩

/-- A device that answers every command with the `#!` controller-error code. -/
def errW : Wire := ⟨true, fun _ => "#!err"⟩

/-- A device whose three successive answers carry a wrong mode (`NORMAL`),
a wrong trigger envelope (`Imax 0`, polarity 1) and a profile without the
expected current. -/
def accW : Wire :=
  ⟨true, fun n => if n = 0 then "#1" else if n = 1 then "#0 1" else "#none"⟩

/-- Concrete channel configuration used as a witness input. -/
def cfgA : ChannelConfig := ⟨1, "M850L3", 850, "NIR-I", 1200, 1200, TriggerPolarity.RISING⟩

/-- A channel configuration whose max current exceeds the pulsed ceiling, so
programming it fails at the TRIGGER step. -/
def cfgB : ChannelConfig := ⟨2, "M940L3", 940, "NIR-I", 5000, 5000, TriggerPolarity.RISING⟩

/-- A raw channel entry used as a witness input. -/
def rawChan (cur mx : Int) : RawChannelData :=
  ⟨FVal.str "L", FVal.missing, FVal.int 850, FVal.int cur, FVal.int mx, FVal.missing⟩

/-- A raw document whose channel keys arrive out of order (3, 1, 2). -/
def rawDoc : RawConfig :=
  ⟨FVal.str "/dev/ttyUSB0", FVal.missing, [(3, rawChan 10 20), (1, rawChan 5 6), (2, rawChan 7 8)]⟩

/-- The formatted `MODE <ch> <mode>` command string (protocol.py f-string). -/
def cmdMODE (channel mode : Int) : String :=
  "MODE " ++ toString channel ++ " " ++ toString mode

/-- The formatted `TRIGGER <ch> <imax> <polarity>` command string. -/
def cmdTRIGGER (channel m : Int) (p : TriggerPolarity) : String :=
  "TRIGGER " ++ toString channel ++ " " ++ toString m ++ " " ++ toString p.toInt

/-- The formatted `TRIGP <ch> <step> <ima> <us>` command string. -/
def cmdTRIGP (channel st c d : Int) : String :=
  "TRIGP " ++ toString channel ++ " " ++ toString st ++ " " ++
    toString c ++ " " ++ toString d

/-! ## Theorems -/

set_option maxRecDepth 100000

/-- C6 counterexample: with an open handle 0 held, `SerialTransport.open`
does not leave the transport state unchanged — it installs a fresh handle. -/
theorem transport_open_not_noop_cex :
    Transport.isOpenSt ⟨some 0, [0], 1⟩ = true ∧
    Transport.openPort ⟨some 0, [0], 1⟩ ≠ (⟨some 0, [0], 1⟩ : TState) := by
  decide

/-- C6 (amended): calling `SerialTransport.open` on an already-open transport
is not a no-op: it acquires a fresh open handle, replacing the held one
without closing it (the port remains open, the old handle leaks); likewise
the legacy controller's `connect` re-sends `ECHOOFF` instead of being a
no-op.  (`hfresh` is the model invariant that held handles come from the
fresh-id supply.) -/
theorem transport_open_reopens (s : TState)
    (hfresh : ∀ h, s.ser = some h → h < s.nextId)
    (hopen : Transport.isOpenSt s = true) :
    Transport.isOpenSt (Transport.openPort s) = true ∧
    (Transport.openPort s).ser ≠ s.ser ∧
    (∀ h, s.ser = some h → (Transport.openPort s).openIds.contains h = true) ∧
    (∀ (s' : TState) (tr : Trace), (Controller.connect s' tr).2 = tr ++ ["ECHOOFF"]) := by
  refine ⟨?_, ?_, ?_, fun s' tr => rfl⟩
  · simp [Transport.openPort, Transport.isOpenSt]
  · intro hc
    cases hser : s.ser with
    | none =>
      rw [hser] at hc
      simp [Transport.openPort] at hc
    | some h =>
      have hlt := hfresh h hser
      rw [hser] at hc
      simp [Transport.openPort] at hc
      omega
  · intro h hser
    have hmem : s.openIds.contains h = true := by
      unfold Transport.isOpenSt at hopen
      rw [hser] at hopen
      exact hopen
    simp only [Transport.openPort, List.contains_cons]
    simp only [List.elem_eq_mem] at hmem
    simp [hmem]

/-- C6 witness: the amended statement evaluated at the concrete open state. -/
theorem transport_open_reopens_witness :
    Transport.isOpenSt (Transport.openPort ⟨some 0, [0], 1⟩) = true ∧
    (Transport.openPort ⟨some 0, [0], 1⟩).ser ≠ (⟨some 0, [0], 1⟩ : TState).ser ∧
    (Transport.openPort ⟨some 0, [0], 1⟩).openIds.contains 0 = true ∧
    (Controller.connect ⟨some 0, [0], 1⟩ []).2 = ["ECHOOFF"] := by
  have h := transport_open_reopens ⟨some 0, [0], 1⟩ (by decide) (by decide)
  exact ⟨h.1, h.2.1, h.2.2.1 0 rfl, h.2.2.2 ⟨some 0, [0], 1⟩ []⟩

/-- C10: the legacy controller's `set_strobe_step` and `set_trigger_step`
validate only the channel: any step, current and duration values — negative
or beyond every documented ceiling — raise no ValidationError and the
formatted STRP/TRIGP command is written to the wire. -/
theorem controller_step_setters_channel_only
    (ch step current_ma duration_us : Int) (h1 : 1 ≤ ch) (h2 : ch ≤ 4)
    (w : Wire) (tr : Trace) (hw : w.isOpen = true) :
    ((Controller.set_strobe_step w tr ch step current_ma duration_us).2 =
      tr ++ ["STRP " ++ toString ch ++ " " ++ toString step ++ " " ++
             toString current_ma ++ " " ++ toString duration_us]) ∧
    isValidationResult (Controller.set_strobe_step w tr ch step current_ma duration_us).1 = false ∧
    ((Controller.set_trigger_step w tr ch step current_ma duration_us).2 =
      tr ++ ["TRIGP " ++ toString ch ++ " " ++ toString step ++ " " ++
             toString current_ma ++ " " ++ toString duration_us]) ∧
    isValidationResult (Controller.set_trigger_step w tr ch step current_ma duration_us).1 = false := by
  have hv : Controller.validateChannel ch = Except.ok () := by
    unfold Controller.validateChannel
    rw [if_pos ⟨h1, h2⟩]
  have key : ∀ c : String,
      Controller.sendCommand w tr c = (Except.ok (pyStrip (w.resp tr.length)), tr ++ [c]) ∨
      ∃ m, Controller.sendCommand w tr c = (Except.error (MErr.command m), tr ++ [c]) := by
    intro c
    unfold Controller.sendCommand
    rw [hw]
    simp only [if_true]
    split
    · exact Or.inr ⟨_, rfl⟩
    · split
      · exact Or.inr ⟨_, rfl⟩
      · split
        · exact Or.inr ⟨_, rfl⟩
        · exact Or.inl rfl
  have main : ∀ c : String,
      ((match Controller.sendCommand w tr c with
        | (Except.error e, tr') => (Except.error e, tr')
        | (Except.ok r, tr') =>
          ((Except.ok (strContains r "##") : Except MErr Bool), tr')).2 = tr ++ [c]) ∧
      isValidationResult
        (match Controller.sendCommand w tr c with
          | (Except.error e, tr') => ((Except.error e : Except MErr Bool), tr')
          | (Except.ok r, tr') => (Except.ok (strContains r "##"), tr')).1 = false := by
    intro c
    rcases key c with h | ⟨m, h⟩ <;> rw [h] <;> exact ⟨rfl, rfl⟩
  unfold Controller.set_strobe_step Controller.set_trigger_step
  rw [hv]
  exact ⟨(main _).1, (main _).2, (main _).1, (main _).2⟩

/-- C10 witness: channel 2 with step 9999, current 4000 mA, duration −5 µs is
sent verbatim, no ValidationError. -/
theorem controller_step_setters_channel_only_witness :
    (Controller.set_strobe_step ackW [] 2 9999 4000 (-5)).2 = ["STRP 2 9999 4000 -5"] ∧
    isValidationResult (Controller.set_strobe_step ackW [] 2 9999 4000 (-5)).1 = false ∧
    (Controller.set_trigger_step ackW [] 2 9999 4000 (-5)).2 = ["TRIGP 2 9999 4000 -5"] ∧
    isValidationResult (Controller.set_trigger_step ackW [] 2 9999 4000 (-5)).1 = false := by
  have h := controller_step_setters_channel_only 2 9999 4000 (-5)
    (by decide) (by decide) ackW [] (by decide)
  refine ⟨?_, h.2.1, ?_, h.2.2.2⟩
  · rw [h.1]; decide
  · rw [h.2.2.1]; decide

/-- C3: in NORMAL-mode commands (`NORMAL`, `CURRENT`) a current of 1000 mA is
accepted and 1001 mA raises a ValidationError; in pulsed-mode commands
(`STROBE`, `STRP`, `TRIGGER`, `TRIGP`) 3500 mA is accepted and 3501 mA
raises; every rejection leaves the trace empty: no bytes reach the wire. -/
theorem current_boundary_validation (ch : Int) (h1 : 1 ≤ ch) (h2 : ch ≤ 4) :
    ((Protocol.set_normal_params ackW [] ch 1000 1000).1 = Except.ok ()) ∧
    (isValidationResult (Protocol.set_normal_params ackW [] ch 1001 1000).1 = true ∧
      (Protocol.set_normal_params ackW [] ch 1001 1000).2 = []) ∧
    (isValidationResult (Protocol.set_normal_params ackW [] ch 1000 1001).1 = true ∧
      (Protocol.set_normal_params ackW [] ch 1000 1001).2 = []) ∧
    ((Protocol.set_current ackW [] ch 1000).1 = Except.ok ()) ∧
    (isValidationResult (Protocol.set_current ackW [] ch 1001).1 = true ∧
      (Protocol.set_current ackW [] ch 1001).2 = []) ∧
    ((Protocol.set_strobe_params ackW [] ch 3500 0).1 = Except.ok ()) ∧
    (isValidationResult (Protocol.set_strobe_params ackW [] ch 3501 0).1 = true ∧
      (Protocol.set_strobe_params ackW [] ch 3501 0).2 = []) ∧
    ((Protocol.set_strobe_step ackW [] ch 0 3500 1).1 = Except.ok ()) ∧
    (isValidationResult (Protocol.set_strobe_step ackW [] ch 0 3501 1).1 = true ∧
      (Protocol.set_strobe_step ackW [] ch 0 3501 1).2 = []) ∧
    ((Protocol.set_trigger_params ackW [] ch 3500 TriggerPolarity.RISING).1 = Except.ok ()) ∧
    (isValidationResult (Protocol.set_trigger_params ackW [] ch 3501 TriggerPolarity.RISING).1 = true ∧
      (Protocol.set_trigger_params ackW [] ch 3501 TriggerPolarity.RISING).2 = []) ∧
    ((Protocol.set_trigger_step ackW [] ch 0 3500 1).1 = Except.ok ()) ∧
    (isValidationResult (Protocol.set_trigger_step ackW [] ch 0 3501 1).1 = true ∧
      (Protocol.set_trigger_step ackW [] ch 0 3501 1).2 = []) := by
  interval_cases ch <;> exact (by decide)

/-- C3 witness: the boundary behaviour evaluated at channel 2. -/
theorem current_boundary_validation_witness :
    (Protocol.set_normal_params ackW [] 2 1000 1000).1 = Except.ok () ∧
    isValidationResult (Protocol.set_normal_params ackW [] 2 1001 1000).1 = true ∧
    (Protocol.set_trigger_step ackW [] 2 0 3500 1).1 = Except.ok () ∧
    isValidationResult (Protocol.set_trigger_step ackW [] 2 0 3501 1).1 = true := by
  have h := current_boundary_validation 2 (by decide) (by decide)
  exact ⟨h.1, h.2.1.1, h.2.2.2.2.2.2.2.2.2.2.2.1, h.2.2.2.2.2.2.2.2.2.2.2.2.1⟩

/-- `listContains` holds whenever the pattern is a prefix of the list. -/
theorem listContains_of_isPrefix (pat l : List Char) (h : pat <+: l) :
    listContains pat l = true := by
  cases l with
  | nil =>
    have : pat = [] := List.prefix_nil.mp h
    simp [this, listContains]
  | cons c cs =>
    unfold listContains
    rw [List.isPrefixOf_iff_prefix.mpr h]
    rfl

/-- `strContains` holds whenever the pattern is a prefix of the string's
character data. -/
theorem strContains_of_prefix (s pat : String) (h : pat.data <+: s.data) :
    strContains s pat = true :=
  listContains_of_isPrefix pat.data s.data h

/-- C5: transport `send` raises TimeoutError exactly when the decoded and
stripped response is empty with the port open (the command was written);
ConnectionError is raised iff the port is not open, with nothing written; a
response `"#!\r"` surfaces through the protocol's command path as a
CommandError whose message mentions "Controller error". -/
theorem transport_send_error_discrimination :
    (∀ (w : Wire) (tr : Trace) (cmd : String), w.isOpen = true →
      pyStrip (w.resp tr.length) = "" →
      Transport.send w tr cmd =
        (Except.error (MErr.timeout ("No response from controller for '" ++ cmd ++ "'")),
         tr ++ [cmd])) ∧
    (∀ (w : Wire) (tr : Trace) (cmd : String), w.isOpen = false →
      isConnectionResult (Transport.send w tr cmd).1 = true ∧
      (Transport.send w tr cmd).2 = tr) ∧
    (∀ (w : Wire) (tr : Trace) (cmd : String), w.isOpen = true →
      isConnectionResult (Transport.send w tr cmd).1 = false) ∧
    (∀ (w : Wire) (tr : Trace) (cmd : String), w.isOpen = true →
      w.resp tr.length = "#!\r" →
      Protocol.cmd w tr cmd =
        (Except.error (MErr.command ("Controller error for '" ++ cmd ++ "': " ++ "#!")),
         tr ++ [cmd]) ∧
      strContains ("Controller error for '" ++ cmd ++ "': " ++ "#!") "Controller error" = true) := by
  refine ⟨?_, ?_, ?_, ?_⟩
  · intro w tr cmd hopen hresp
    unfold Transport.send
    rw [hopen]
    simp only [if_true, hresp]
  · intro w tr cmd hclosed
    unfold Transport.send
    rw [hclosed]
    exact ⟨rfl, rfl⟩
  · intro w tr cmd hopen
    unfold Transport.send
    rw [hopen]
    simp only [if_true]
    split <;> rfl
  · intro w tr cmd hopen hresp
    constructor
    · unfold Protocol.cmd Transport.send
      rw [hopen, hresp]
      simp only [if_true]
      rfl
    · apply strContains_of_prefix
      have h1 : ("Controller error".data : List Char) <+:
          ("Controller error for '").data := by decide
      have h2 : (("Controller error for '").data : List Char) <+:
          ("Controller error for '" ++ cmd ++ "': " ++ "#!").data := by
        show _ <+: (("Controller error for '" ++ cmd ++ "': ").data ++ ("#!").data)
        refine List.IsPrefix.trans ?_ (List.prefix_append _ _)
        show _ <+: (("Controller error for '" ++ cmd).data ++ ("': ").data)
        refine List.IsPrefix.trans ?_ (List.prefix_append _ _)
        show _ <+: (("Controller error for '").data ++ cmd.data)
        exact List.prefix_append _ _
      exact h1.trans h2

/-- C5 witness: the three error behaviours at concrete inputs. -/
theorem transport_send_error_discrimination_witness :
    Transport.send ⟨true, fun _ => " "⟩ [] "STORE" =
      (Except.error (MErr.timeout "No response from controller for 'STORE'"), ["STORE"]) ∧
    isConnectionResult (Transport.send ⟨false, fun _ => "##"⟩ [] "STORE").1 = true ∧
    isConnectionResult (Transport.send ackW [] "STORE").1 = false ∧
    Protocol.cmd ⟨true, fun _ => "#!\r"⟩ [] "STORE" =
      (Except.error (MErr.command ("Controller error for '" ++ "STORE" ++ "': " ++ "#!")), ["STORE"]) := by
  have h := transport_send_error_discrimination
  exact ⟨h.1 ⟨true, fun _ => " "⟩ [] "STORE" (by decide) (by decide),
    (h.2.1 ⟨false, fun _ => "##"⟩ [] "STORE" (by decide)).1,
    h.2.2.1 ackW [] "STORE" (by decide),
    (h.2.2.2 ⟨true, fun _ => "#!\r"⟩ [] "STORE" (by decide) (by decide)).1⟩

/-- Field behaviour of the serial-number extraction step. -/
theorem fromStep3_fields (r fw md : String) :
    (DeviceInfo.fromStep3 r fw md).firmware_version = fw ∧
    (DeviceInfo.fromStep3 r fw md).module_number = md ∧
    ((DeviceInfo.fromStep3 r fw md).serial_number = "Unknown" ∨
      extractTok r "Serial No.:" = some (DeviceInfo.fromStep3 r fw md).serial_number) := by
  unfold DeviceInfo.fromStep3
  split
  · split
    · exact ⟨rfl, rfl, Or.inl rfl⟩
    · rename_i sn heq
      exact ⟨rfl, rfl, Or.inr (by rw [heq])⟩
  · exact ⟨rfl, rfl, Or.inl rfl⟩

/-- Field behaviour of the module-number extraction step. -/
theorem fromStep2_fields (r fw : String) :
    (DeviceInfo.fromStep2 r fw).firmware_version = fw ∧
    ((DeviceInfo.fromStep2 r fw).module_number = "Unknown" ∨
      extractTok r "Module No.:" = some (DeviceInfo.fromStep2 r fw).module_number) ∧
    ((DeviceInfo.fromStep2 r fw).serial_number = "Unknown" ∨
      extractTok r "Serial No.:" = some (DeviceInfo.fromStep2 r fw).serial_number) := by
  unfold DeviceInfo.fromStep2
  split
  · split
    · exact ⟨rfl, Or.inl rfl, Or.inl rfl⟩
    · rename_i md heq
      obtain ⟨f3, m3, s3⟩ := fromStep3_fields r fw md
      exact ⟨f3, Or.inr (by rw [heq, m3]), s3⟩
  · obtain ⟨f3, m3, s3⟩ := fromStep3_fields r fw "Unknown"
    exact ⟨f3, Or.inl m3, s3⟩

/-- C9: `DeviceInfo.from_response` is total — it is a Lean function — and on
every input each field is either the whitespace-delimited token following its
marker or the "Unknown" sentinel. -/
theorem deviceinfo_parse_total (r : String) :
    ((DeviceInfo.from_response r).firmware_version = "Unknown" ∨
      extractTok r "Driver:" = some (DeviceInfo.from_response r).firmware_version) ∧
    ((DeviceInfo.from_response r).module_number = "Unknown" ∨
      extractTok r "Module No.:" = some (DeviceInfo.from_response r).module_number) ∧
    ((DeviceInfo.from_response r).serial_number = "Unknown" ∨
      extractTok r "Serial No.:" = some (DeviceInfo.from_response r).serial_number) := by
  unfold DeviceInfo.from_response
  split
  · split
    · exact ⟨Or.inl rfl, Or.inl rfl, Or.inl rfl⟩
    · rename_i fw heq
      obtain ⟨f2, m2, s2⟩ := fromStep2_fields r fw
      exact ⟨Or.inr (by rw [heq, f2]), m2, s2⟩
  · obtain ⟨f2, m2, s2⟩ := fromStep2_fields r "Unknown"
    exact ⟨Or.inl f2, m2, s2⟩

/-- Members of an insertion are the inserted element or prior members. -/
theorem mem_insertSorted {c x : ChannelConfig} {l : List ChannelConfig}
    (h : x ∈ insertSorted c l) : x = c ∨ x ∈ l := by
  induction l with
  | nil => simpa [insertSorted] using h
  | cons y ys ih =>
    unfold insertSorted at h
    split at h
    · rcases List.mem_cons.mp h with h | h
      · exact Or.inl h
      · exact Or.inr h
    · rcases List.mem_cons.mp h with h | h
      · exact Or.inr (by simp [h])
      · rcases ih h with h | h
        · exact Or.inl h
        · exact Or.inr (by simp [h])

/-- Stable insertion preserves sortedness by channel number. -/
theorem pairwise_insertSorted {c : ChannelConfig} {l : List ChannelConfig}
    (h : l.Pairwise (fun a b => a.channel ≤ b.channel)) :
    (insertSorted c l).Pairwise (fun a b => a.channel ≤ b.channel) := by
  induction l with
  | nil => simp [insertSorted]
  | cons y ys ih =>
    rw [List.pairwise_cons] at h
    obtain ⟨hy, hys⟩ := h
    unfold insertSorted
    split
    · rename_i hle
      refine List.Pairwise.cons ?_ (List.Pairwise.cons hy hys)
      intro b hb
      rcases List.mem_cons.mp hb with rfl | hb
      · exact hle
      · exact le_trans hle (hy b hb)
    · rename_i hgt
      have hyc : y.channel ≤ c.channel := le_of_not_le hgt
      refine List.Pairwise.cons ?_ (ih hys)
      intro b hb
      rcases mem_insertSorted hb with rfl | hb
      · exact hyc
      · exact hy b hb

/-- The channel sort is sorted. -/
theorem pairwise_sortByChannel (l : List ChannelConfig) :
    (sortByChannel l).Pairwise (fun a b => a.channel ≤ b.channel) := by
  induction l with
  | nil => simp [sortByChannel]
  | cons c cs ih => exact pairwise_insertSorted ih

/-- C8: whenever `load_config` accepts a raw document, the channels of the
returned TriggerConfig are sorted ascending by channel number, whatever the
key order of the source mapping. -/
theorem load_config_channels_sorted (raw : RawConfig) (cfg : TriggerConfig)
    (h : TriggerProgrammer.load_config raw = Except.ok cfg) :
    cfg.channels.Pairwise (fun a b => a.channel ≤ b.channel) := by
  unfold TriggerProgrammer.load_config at h
  rcases hport : raw.port with _ | port | n | b | _ <;> rw [hport] at h <;> simp only [] at h
  case str =>
    split at h
    · simp at h
    · split at h
      · simp at h
      · split at h
        · simp at h
        · split at h
          · simp at h
          · rename_i channels hchan
            cases h
            exact pairwise_sortByChannel channels
  all_goals simp at h

/-- C8 witness: the out-of-order document is accepted and returned sorted. -/
theorem load_config_channels_sorted_witness :
    ([⟨1, "L", 850, "", 5, 6, TriggerPolarity.RISING⟩,
      ⟨2, "L", 850, "", 7, 8, TriggerPolarity.RISING⟩,
      ⟨3, "L", 850, "", 10, 20, TriggerPolarity.RISING⟩] : List ChannelConfig).Pairwise
      (fun a b => a.channel ≤ b.channel) :=
  load_config_channels_sorted rawDoc
    ⟨"/dev/ttyUSB0", true,
      [⟨1, "L", 850, "", 5, 6, TriggerPolarity.RISING⟩,
       ⟨2, "L", 850, "", 7, 8, TriggerPolarity.RISING⟩,
       ⟨3, "L", 850, "", 10, 20, TriggerPolarity.RISING⟩]⟩ (by decide)

/-- C7: within the per-field NORMAL ranges, `set_normal_params` raises the
distinct "cannot exceed" ValidationError whenever the set current exceeds the
max current — leaving the trace untouched — and writes the NORMAL command
exactly when set ≤ max. -/
theorem set_normal_params_cross_field (ch m s : Int) (h1 : 1 ≤ ch) (h2 : ch ≤ 4)
    (hm0 : 0 ≤ m) (hm1 : m ≤ 1000) (hs0 : 0 ≤ s) (hs1 : s ≤ 1000)
    (w : Wire) (tr : Trace) (hw : w.isOpen = true) :
    (s > m →
      Protocol.set_normal_params w tr ch m s =
        (Except.error (MErr.validation ("set_current_ma (" ++ toString s ++
          ") cannot exceed max_current_ma (" ++ toString m ++ ")")), tr)) ∧
    (s ≤ m →
      (Protocol.set_normal_params w tr ch m s).2 =
        tr ++ ["NORMAL " ++ toString ch ++ " " ++ toString m ++ " " ++ toString s]) := by
  have v1 : Protocol.validateChannel ch = Except.ok () := by
    unfold Protocol.validateChannel
    rw [if_pos ⟨h1, h2⟩]
  have v2 : Protocol.validateCurrent m 1000 "max_current_ma" = Except.ok () := by
    unfold Protocol.validateCurrent
    rw [if_pos ⟨hm0, hm1⟩]
  have v3 : Protocol.validateCurrent s 1000 "set_current_ma" = Except.ok () := by
    unfold Protocol.validateCurrent
    rw [if_pos ⟨hs0, hs1⟩]
  have hca : ∀ c : String, (Protocol.cmdAck w tr c).2 = tr ++ [c] := by
    intro c
    unfold Protocol.cmdAck Transport.send
    rw [hw]
    simp only [if_true]
    by_cases hresp : pyStrip (w.resp tr.length) = ""
    · rw [if_pos hresp]
    · rw [if_neg hresp]
  unfold Protocol.set_normal_params
  rw [v1, v2, v3]
  simp only [vseq]
  constructor
  · intro hgt
    rw [if_pos hgt]
  · intro hle
    rw [if_neg (not_lt.mpr hle)]
    exact hca _

/-- C7 witness: channel 1, max 500 mA — set 600 mA is rejected with the
"cannot exceed" error and nothing is written; set 300 mA sends NORMAL. -/
theorem set_normal_params_cross_field_witness :
    Protocol.set_normal_params ackW [] 1 500 600 =
      (Except.error (MErr.validation ("set_current_ma (" ++ toString (600 : Int) ++
        ") cannot exceed max_current_ma (" ++ toString (500 : Int) ++ ")")), []) ∧
    (Protocol.set_normal_params ackW [] 1 500 300).2 =
      ["NORMAL " ++ toString (1 : Int) ++ " " ++ toString (500 : Int) ++ " " ++ toString (300 : Int)] := by
  constructor
  · exact (set_normal_params_cross_field 1 500 600 (by decide) (by decide) (by decide)
      (by decide) (by decide) (by decide) ackW [] (by decide)).1 (by decide)
  · exact (set_normal_params_cross_field 1 500 300 (by decide) (by decide) (by decide)
      (by decide) (by decide) (by decide) ackW [] (by decide)).2 (by decide)

/-- A property of the trace survives a validation guard: validation failure
keeps the trace, success runs the continuation. -/
theorem vseq_trace_cases {α : Type} (v : Except MErr Unit) (tr : Trace)
    (k : Unit → Except MErr α × Trace) (P : Trace → Prop)
    (hP : P tr) (hk : P (k ()).2) : P (vseq v tr k).2 := by
  cases v with
  | error e => exact hP
  | ok u => cases u; exact hk

/-- A guarded action that succeeded ran its continuation. -/
theorem vseq_eq_of_ok {α : Type} {v : Except MErr Unit} {tr : Trace}
    {k : Unit → Except MErr α × Trace} {a : α}
    (h : (vseq v tr k).1 = Except.ok a) : vseq v tr k = k () := by
  cases v with
  | error e => simp [vseq] at h
  | ok u => cases u; rfl

/-- `_cmd_ack` leaves the trace alone (closed port) or appends its command. -/
theorem cmdAck_trace_cases (w : Wire) (tr : Trace) (c : String) :
    (Protocol.cmdAck w tr c).2 = tr ∨ (Protocol.cmdAck w tr c).2 = tr ++ [c] := by
  unfold Protocol.cmdAck Transport.send
  cases hw : w.isOpen
  · exact Or.inl rfl
  · by_cases hresp : pyStrip (w.resp tr.length) = ""
    · rw [if_pos hresp]
      exact Or.inr rfl
    · rw [if_neg hresp]
      exact Or.inr rfl

/-- A `_cmd_ack` that succeeded wrote its command. -/
theorem cmdAck_ok_trace {w : Wire} {tr : Trace} {c : String}
    (h : (Protocol.cmdAck w tr c).1 = Except.ok ()) :
    (Protocol.cmdAck w tr c).2 = tr ++ [c] := by
  unfold Protocol.cmdAck Transport.send at h ⊢
  cases hw : w.isOpen
  · rw [hw] at h
    simp at h
  · by_cases hresp : pyStrip (w.resp tr.length) = ""
    · rw [hw, if_pos hresp] at h
      simp at h
    · rw [if_neg hresp]
      rfl

/-- `set_mode` leaves the trace alone or appends exactly its MODE command. -/
theorem set_mode_trace_cases (w : Wire) (tr : Trace) (ch mode : Int) :
    (Protocol.set_mode w tr ch mode).2 = tr ∨
    (Protocol.set_mode w tr ch mode).2 =
      tr ++ ["MODE " ++ toString ch ++ " " ++ toString mode] := by
  unfold Protocol.set_mode
  refine vseq_trace_cases _ _ _ (fun t => t = tr ∨ t = tr ++ ["MODE " ++ toString ch ++ " " ++ toString mode]) (Or.inl rfl) ?_
  refine vseq_trace_cases _ _ _ (fun t => t = tr ∨ t = tr ++ ["MODE " ++ toString ch ++ " " ++ toString mode]) (Or.inl rfl) ?_
  exact cmdAck_trace_cases w tr _

/-- A `set_mode` that succeeded wrote exactly its MODE command. -/
theorem set_mode_ok_trace {w : Wire} {tr : Trace} {ch mode : Int}
    (h : (Protocol.set_mode w tr ch mode).1 = Except.ok ()) :
    (Protocol.set_mode w tr ch mode).2 =
      tr ++ ["MODE " ++ toString ch ++ " " ++ toString mode] := by
  unfold Protocol.set_mode at h ⊢
  have e1 := vseq_eq_of_ok h
  rw [e1] at h ⊢
  have e2 := vseq_eq_of_ok h
  rw [e2] at h ⊢
  exact cmdAck_ok_trace h

/-- `set_trigger_params` leaves the trace alone or appends its command. -/
theorem set_trigger_params_trace_cases (w : Wire) (tr : Trace) (ch m : Int)
    (p : TriggerPolarity) :
    (Protocol.set_trigger_params w tr ch m p).2 = tr ∨
    (Protocol.set_trigger_params w tr ch m p).2 =
      tr ++ ["TRIGGER " ++ toString ch ++ " " ++ toString m ++ " " ++ toString p.toInt] := by
  unfold Protocol.set_trigger_params
  refine vseq_trace_cases _ _ _ (fun t => t = tr ∨ t = tr ++ ["TRIGGER " ++ toString ch ++ " " ++ toString m ++ " " ++ toString p.toInt]) (Or.inl rfl) ?_
  refine vseq_trace_cases _ _ _ (fun t => t = tr ∨ t = tr ++ ["TRIGGER " ++ toString ch ++ " " ++ toString m ++ " " ++ toString p.toInt]) (Or.inl rfl) ?_
  exact cmdAck_trace_cases w tr _

/-- A `set_trigger_params` that succeeded wrote exactly its command. -/
theorem set_trigger_params_ok_trace {w : Wire} {tr : Trace} {ch m : Int}
    {p : TriggerPolarity}
    (h : (Protocol.set_trigger_params w tr ch m p).1 = Except.ok ()) :
    (Protocol.set_trigger_params w tr ch m p).2 =
      tr ++ ["TRIGGER " ++ toString ch ++ " " ++ toString m ++ " " ++ toString p.toInt] := by
  unfold Protocol.set_trigger_params at h ⊢
  have e1 := vseq_eq_of_ok h
  rw [e1] at h ⊢
  have e2 := vseq_eq_of_ok h
  rw [e2] at h ⊢
  exact cmdAck_ok_trace h

/-- `set_trigger_step` leaves the trace alone or appends its TRIGP command. -/
theorem set_trigger_step_trace_cases (w : Wire) (tr : Trace) (ch st c d : Int) :
    (Protocol.set_trigger_step w tr ch st c d).2 = tr ∨
    (Protocol.set_trigger_step w tr ch st c d).2 =
      tr ++ ["TRIGP " ++ toString ch ++ " " ++ toString st ++ " " ++
             toString c ++ " " ++ toString d] := by
  unfold Protocol.set_trigger_step
  refine vseq_trace_cases _ _ _ (fun t => t = tr ∨ t = tr ++ ["TRIGP " ++ toString ch ++ " " ++ toString st ++ " " ++ toString c ++ " " ++ toString d]) (Or.inl rfl) ?_
  refine vseq_trace_cases _ _ _ (fun t => t = tr ∨ t = tr ++ ["TRIGP " ++ toString ch ++ " " ++ toString st ++ " " ++ toString c ++ " " ++ toString d]) (Or.inl rfl) ?_
  refine vseq_trace_cases _ _ _ (fun t => t = tr ∨ t = tr ++ ["TRIGP " ++ toString ch ++ " " ++ toString st ++ " " ++ toString c ++ " " ++ toString d]) (Or.inl rfl) ?_
  refine vseq_trace_cases _ _ _ (fun t => t = tr ∨ t = tr ++ ["TRIGP " ++ toString ch ++ " " ++ toString st ++ " " ++ toString c ++ " " ++ toString d]) (Or.inl rfl) ?_
  exact cmdAck_trace_cases w tr _

/-- A `set_trigger_step` that succeeded wrote exactly its TRIGP command. -/
theorem set_trigger_step_ok_trace {w : Wire} {tr : Trace} {ch st c d : Int}
    (h : (Protocol.set_trigger_step w tr ch st c d).1 = Except.ok ()) :
    (Protocol.set_trigger_step w tr ch st c d).2 =
      tr ++ ["TRIGP " ++ toString ch ++ " " ++ toString st ++ " " ++
             toString c ++ " " ++ toString d] := by
  unfold Protocol.set_trigger_step at h ⊢
  have e1 := vseq_eq_of_ok h
  rw [e1] at h ⊢
  have e2 := vseq_eq_of_ok h
  rw [e2] at h ⊢
  have e3 := vseq_eq_of_ok h
  rw [e3] at h ⊢
  have e4 := vseq_eq_of_ok h
  rw [e4] at h ⊢
  exact cmdAck_ok_trace h


/-- C1 (controller modelled from the spec, §4.3): with a connected,
always-acknowledging device, `set_trigger_follower` sends exactly the five
commands `MODE ch 0`, `TRIGGER ch max p`, `TRIGP ch 0 c 9999`,
`TRIGP ch 1 0 0`, `MODE ch 3`, in this order; and against every device
behaviour the trace stays a prefix of that list — a failing step prevents
every later command from being sent. -/
theorem set_trigger_follower_five_commands (ch c m : Int) (p : TriggerPolarity)
    (h1 : 1 ≤ ch) (h2 : ch ≤ 4) (hc0 : 0 ≤ c) (hc1 : c ≤ 3500)
    (hm0 : 0 ≤ m) (hm1 : m ≤ 3500) :
    Controller.set_trigger_follower ackW [] ch c m p =
      (Except.ok (),
       [cmdMODE ch 0, cmdTRIGGER ch m p, cmdTRIGP ch 0 c 9999, cmdTRIGP ch 1 0 0,
        cmdMODE ch 3]) ∧
    (∀ w : Wire, (Controller.set_trigger_follower w [] ch c m p).2 <+:
       [cmdMODE ch 0, cmdTRIGGER ch m p, cmdTRIGP ch 0 c 9999, cmdTRIGP ch 1 0 0,
        cmdMODE ch 3]) := by
  have v1 : Protocol.validateChannel ch = Except.ok () := by
    unfold Protocol.validateChannel
    rw [if_pos ⟨h1, h2⟩]
  have vcm : Protocol.validateCurrent m 3500 "max_current_ma" = Except.ok () := by
    unfold Protocol.validateCurrent
    rw [if_pos ⟨hm0, hm1⟩]
  have vcc : Protocol.validateCurrent c 3500 "current_ma" = Except.ok () := by
    unfold Protocol.validateCurrent
    rw [if_pos ⟨hc0, hc1⟩]
  have hackAck : ∀ (tr : Trace) (s : String),
      Protocol.cmdAck ackW tr s = (Except.ok (), tr ++ [s]) := fun _ _ => rfl
  have vm0 : Protocol.validateMode 0 = Except.ok () := rfl
  have vm3 : Protocol.validateMode 3 = Except.ok () := rfl
  have vs0 : Protocol.validateStep 0 = Except.ok () := rfl
  have vs1 : Protocol.validateStep 1 = Except.ok () := rfl
  have vc0 : Protocol.validateCurrent 0 3500 "current_ma" = Except.ok () := rfl
  have vd9 : Protocol.validateDuration 9999 = Except.ok () := rfl
  have vd0 : Protocol.validateDuration 0 = Except.ok () := rfl
  constructor
  · have s1 : Protocol.set_mode ackW [] ch 0 = (Except.ok (), [cmdMODE ch 0]) := by
      unfold Protocol.set_mode
      rw [v1, vm0]
      simp only [vseq]
      exact hackAck [] _
    have s2 : Protocol.set_trigger_params ackW [cmdMODE ch 0] ch m p =
        (Except.ok (), [cmdMODE ch 0, cmdTRIGGER ch m p]) := by
      unfold Protocol.set_trigger_params
      rw [v1, vcm]
      simp only [vseq]
      exact hackAck _ _
    have s3 : Protocol.set_trigger_step ackW [cmdMODE ch 0, cmdTRIGGER ch m p]
        ch 0 c 9999 =
        (Except.ok (), [cmdMODE ch 0, cmdTRIGGER ch m p, cmdTRIGP ch 0 c 9999]) := by
      unfold Protocol.set_trigger_step
      rw [v1, vs0, vcc, vd9]
      simp only [vseq]
      exact hackAck _ _
    have s4 : Protocol.set_trigger_step ackW
        [cmdMODE ch 0, cmdTRIGGER ch m p, cmdTRIGP ch 0 c 9999] ch 1 0 0 =
        (Except.ok (),
         [cmdMODE ch 0, cmdTRIGGER ch m p, cmdTRIGP ch 0 c 9999, cmdTRIGP ch 1 0 0]) := by
      unfold Protocol.set_trigger_step
      rw [v1, vs1, vc0, vd0]
      simp only [vseq]
      exact hackAck _ _
    have s5 : Protocol.set_mode ackW
        [cmdMODE ch 0, cmdTRIGGER ch m p, cmdTRIGP ch 0 c 9999, cmdTRIGP ch 1 0 0]
        ch 3 =
        (Except.ok (),
         [cmdMODE ch 0, cmdTRIGGER ch m p, cmdTRIGP ch 0 c 9999, cmdTRIGP ch 1 0 0,
          cmdMODE ch 3]) := by
      unfold Protocol.set_mode
      rw [v1, vm3]
      simp only [vseq]
      exact hackAck _ _
    simp only [Controller.set_trigger_follower, s1, s2, s3, s4, s5, pseq]
  · intro w
    unfold Controller.set_trigger_follower
    rcases q1 : Protocol.set_mode w [] ch 0 with ⟨e1 | ⟨⟩, tr1⟩
    · have hc1t := set_mode_trace_cases w [] ch 0
      rw [q1] at hc1t
      simp only [pseq]
      rcases (show tr1 = [] ∨ tr1 = [] ++ [cmdMODE ch 0] from hc1t) with rfl | rfl
      · exact List.nil_prefix
      · exact ⟨[cmdTRIGGER ch m p, cmdTRIGP ch 0 c 9999, cmdTRIGP ch 1 0 0,
          cmdMODE ch 3], by simp⟩
    · have htr1 : tr1 = [] ++ [cmdMODE ch 0] := by
        have hx := set_mode_ok_trace
          (show (Protocol.set_mode w [] ch 0).1 = Except.ok () by rw [q1])
        rw [q1] at hx
        exact hx
      subst htr1
      simp only [pseq]
      rcases q2 : Protocol.set_trigger_params w ([] ++ [cmdMODE ch 0]) ch m p
        with ⟨e2 | ⟨⟩, tr2⟩
      · have hc2t := set_trigger_params_trace_cases w ([] ++ [cmdMODE ch 0]) ch m p
        rw [q2] at hc2t
        simp only [pseq]
        rcases (show tr2 = [] ++ [cmdMODE ch 0] ∨
            tr2 = ([] ++ [cmdMODE ch 0]) ++ [cmdTRIGGER ch m p] from hc2t) with rfl | rfl
        · exact ⟨[cmdTRIGGER ch m p, cmdTRIGP ch 0 c 9999, cmdTRIGP ch 1 0 0,
            cmdMODE ch 3], by simp⟩
        · exact ⟨[cmdTRIGP ch 0 c 9999, cmdTRIGP ch 1 0 0, cmdMODE ch 3], by simp⟩
      · have htr2 : tr2 = ([] ++ [cmdMODE ch 0]) ++ [cmdTRIGGER ch m p] := by
          have hx := set_trigger_params_ok_trace
            (show (Protocol.set_trigger_params w ([] ++ [cmdMODE ch 0]) ch m p).1 =
              Except.ok () by rw [q2])
          rw [q2] at hx
          exact hx
        subst htr2
        simp only [pseq]
        rcases q3 : Protocol.set_trigger_step w
            (([] ++ [cmdMODE ch 0]) ++ [cmdTRIGGER ch m p]) ch 0 c 9999
          with ⟨e3 | ⟨⟩, tr3⟩
        · have hc3t := set_trigger_step_trace_cases w
            (([] ++ [cmdMODE ch 0]) ++ [cmdTRIGGER ch m p]) ch 0 c 9999
          rw [q3] at hc3t
          simp only [pseq]
          rcases (show tr3 = ([] ++ [cmdMODE ch 0]) ++ [cmdTRIGGER ch m p] ∨
              tr3 = (([] ++ [cmdMODE ch 0]) ++ [cmdTRIGGER ch m p]) ++
                [cmdTRIGP ch 0 c 9999] from hc3t) with rfl | rfl
          · exact ⟨[cmdTRIGP ch 0 c 9999, cmdTRIGP ch 1 0 0, cmdMODE ch 3], by simp⟩
          · exact ⟨[cmdTRIGP ch 1 0 0, cmdMODE ch 3], by simp⟩
        · have htr3 : tr3 = (([] ++ [cmdMODE ch 0]) ++ [cmdTRIGGER ch m p]) ++
              [cmdTRIGP ch 0 c 9999] := by
            have hx := set_trigger_step_ok_trace
              (show (Protocol.set_trigger_step w
                (([] ++ [cmdMODE ch 0]) ++ [cmdTRIGGER ch m p]) ch 0 c 9999).1 =
                Except.ok () by rw [q3])
            rw [q3] at hx
            exact hx
          subst htr3
          simp only [pseq]
          rcases q4 : Protocol.set_trigger_step w
              ((([] ++ [cmdMODE ch 0]) ++ [cmdTRIGGER ch m p]) ++
               [cmdTRIGP ch 0 c 9999]) ch 1 0 0
            with ⟨e4 | ⟨⟩, tr4⟩
          · have hc4t := set_trigger_step_trace_cases w
              ((([] ++ [cmdMODE ch 0]) ++ [cmdTRIGGER ch m p]) ++
               [cmdTRIGP ch 0 c 9999]) ch 1 0 0
            rw [q4] at hc4t
            simp only [pseq]
            rcases (show tr4 = (([] ++ [cmdMODE ch 0]) ++ [cmdTRIGGER ch m p]) ++
                [cmdTRIGP ch 0 c 9999] ∨
                tr4 = ((([] ++ [cmdMODE ch 0]) ++ [cmdTRIGGER ch m p]) ++
                [cmdTRIGP ch 0 c 9999]) ++ [cmdTRIGP ch 1 0 0] from hc4t) with rfl | rfl
            · exact ⟨[cmdTRIGP ch 1 0 0, cmdMODE ch 3], by simp⟩
            · exact ⟨[cmdMODE ch 3], by simp⟩
          · have htr4 : tr4 = ((([] ++ [cmdMODE ch 0]) ++ [cmdTRIGGER ch m p]) ++
                [cmdTRIGP ch 0 c 9999]) ++ [cmdTRIGP ch 1 0 0] := by
              have hx := set_trigger_step_ok_trace
                (show (Protocol.set_trigger_step w
                  ((([] ++ [cmdMODE ch 0]) ++ [cmdTRIGGER ch m p]) ++
                   [cmdTRIGP ch 0 c 9999]) ch 1 0 0).1 = Except.ok () by rw [q4])
              rw [q4] at hx
              exact hx
            subst htr4
            simp only [pseq]
            have hc5t := set_mode_trace_cases w
              (((([] ++ [cmdMODE ch 0]) ++ [cmdTRIGGER ch m p]) ++
               [cmdTRIGP ch 0 c 9999]) ++ [cmdTRIGP ch 1 0 0]) ch 3
            rcases hc5t with h | h <;> rw [h]
            · exact ⟨[cmdMODE ch 3], by simp⟩
            · exact ⟨[], by simp [cmdMODE]⟩

/-- C1 witness: the claim's concrete instance — channel 2, current 1000 mA,
max 1000 mA, rising polarity. -/
theorem set_trigger_follower_five_commands_witness :
    Controller.set_trigger_follower ackW [] 2 1000 1000 TriggerPolarity.RISING =
      (Except.ok (),
       ["MODE 2 0", "TRIGGER 2 1000 0", "TRIGP 2 0 1000 9999", "TRIGP 2 1 0 0",
        "MODE 2 3"]) := by
  have h := (set_trigger_follower_five_commands 2 1000 1000 TriggerPolarity.RISING
    (by decide) (by decide) (by decide) (by decide) (by decide) (by decide)).1
  rw [h]
  decide

/-- `program_channel` tags its result with the channel it programmed. -/
theorem program_channel_config (w : Wire) (tr : Trace) (c : ChannelConfig) :
    (TriggerProgrammer.program_channel w tr c).1.channel_config = c := by
  unfold TriggerProgrammer.program_channel
  split <;> rfl

/-- A device-level error inside the follower sequence becomes a failure
result of `program_channel` rather than propagating. -/
theorem program_channel_error (w : Wire) (tr : Trace) (ch : ChannelConfig)
    (e : MErr) (tr1 : Trace)
    (h : Controller.set_trigger_follower w tr ch.channel ch.current_ma
      ch.max_current_ma ch.polarity = (Except.error e, tr1)) :
    TriggerProgrammer.program_channel w tr ch =
      (⟨ch, false, ch.label ++ " → FAILED: " ++ e.msg⟩, tr1) := by
  unfold TriggerProgrammer.program_channel
  rw [h]

/-- `program_all` emits one result per configured channel, in config order. -/
theorem program_all_map (w : Wire) (tr : Trace) (chs : List ChannelConfig) :
    (TriggerProgrammer.program_all w tr chs).1.results.map
      (fun r => r.channel_config) = chs := by
  induction chs generalizing tr with
  | nil => rfl
  | cons c rest ih =>
    show List.map (fun r => r.channel_config)
      ((TriggerProgrammer.program_channel w tr c).1 ::
       (TriggerProgrammer.program_all w
         (TriggerProgrammer.program_channel w tr c).2 rest).1.results) = c :: rest
    rw [List.map_cons, program_channel_config, ih]

/-- C2: `program_all` returns exactly one ChannelResult per configured
channel, in config order; a MightexError while programming one channel is
converted into that channel's failure result instead of propagating (so the
loop reaches every later channel); `all_ok` is the conjunction of the
per-channel successes, and the summary is `<n>/<n> channels OK` when every
channel succeeded and `<passed>/<total> channels FAILED` otherwise. -/
theorem program_all_report (w : Wire) (tr : Trace) (chs : List ChannelConfig) :
    ((TriggerProgrammer.program_all w tr chs).1.results.map
        (fun r => r.channel_config) = chs) ∧
    ((TriggerProgrammer.program_all w tr chs).1.all_ok = true ↔
      ∀ r ∈ (TriggerProgrammer.program_all w tr chs).1.results, r.success = true) ∧
    ((TriggerProgrammer.program_all w tr chs).1.all_ok = true →
      (TriggerProgrammer.program_all w tr chs).1.summary =
        toString chs.length ++ "/" ++ toString chs.length ++ " channels " ++ "OK") ∧
    ((TriggerProgrammer.program_all w tr chs).1.all_ok = false →
      (TriggerProgrammer.program_all w tr chs).1.summary =
        toString (TriggerProgrammer.program_all w tr chs).1.passed ++ "/" ++
          toString chs.length ++ " channels " ++ "FAILED") ∧
    (∀ (tr0 : Trace) (ch : ChannelConfig) (e : MErr) (tr1 : Trace),
      Controller.set_trigger_follower w tr0 ch.channel ch.current_ma
        ch.max_current_ma ch.polarity = (Except.error e, tr1) →
      TriggerProgrammer.program_channel w tr0 ch =
        (⟨ch, false, ch.label ++ " → FAILED: " ++ e.msg⟩, tr1)) := by
  have hmap := program_all_map w tr chs
  have hlen : (TriggerProgrammer.program_all w tr chs).1.results.length = chs.length := by
    have hx := congrArg List.length hmap
    rwa [List.length_map] at hx
  refine ⟨hmap, ?_, ?_, ?_, fun tr0 ch e tr1 h => program_channel_error w tr0 ch e tr1 h⟩
  · unfold ProgramReport.all_ok
    exact List.all_eq_true
  · intro hok
    have hall : ∀ r ∈ (TriggerProgrammer.program_all w tr chs).1.results,
        r.success = true := by
      unfold ProgramReport.all_ok at hok
      exact List.all_eq_true.mp hok
    have hpassed : (TriggerProgrammer.program_all w tr chs).1.passed = chs.length := by
      unfold ProgramReport.passed
      rw [List.filter_eq_self.mpr hall, hlen]
    unfold ProgramReport.summary
    rw [hok, hpassed, hlen]
    simp
  · intro hfail
    unfold ProgramReport.summary
    rw [hfail, hlen]
    simp

/-- C2 witness: two channels where the second fails mid-sequence — one result
each, in order, and the report reads `1/2 channels FAILED`. -/
theorem program_all_report_witness :
    (TriggerProgrammer.program_all ackW [] [cfgA, cfgB]).1.summary =
      "1/2 channels FAILED" ∧
    (TriggerProgrammer.program_all ackW [] [cfgA, cfgB]).1.results.map
      (fun r => r.channel_config) = [cfgA, cfgB] := by
  have h := program_all_report ackW [] [cfgA, cfgB]
  refine ⟨?_, h.1⟩
  have hs := h.2.2.2.1 (by decide)
  rw [hs]
  decide

/-- C4 counterexample: when the very first query (`?MODE`) draws a device
error, `verify_channel` sends no further query — the `?TRIGGER` and `?TRIGP`
queries are aborted, so only one command is on the wire (the error is still
accumulated into a failure result rather than raised). -/
theorem verify_channel_aborts_queries_cex :
    (TriggerProgrammer.verify_channel errW [] cfgA).2 = ["?MODE 1"] ∧
    (TriggerProgrammer.verify_channel errW [] cfgA).1 =
      Except.ok ⟨cfgA, false,
        "CH1 M850L3 (850 nm) → VERIFY FAILED: query failed: Controller error for '?MODE 1': #!err"⟩ := by
  decide

/-- C4 (amended): `verify_channel` accumulates every mismatch it finds into
one combined failure message — here a wrong mode, wrong Imax, wrong polarity
and a profile missing the expected current, all four at once — and returns a
failure ChannelResult; a query-level device error likewise becomes one more
accumulated error in a failure result rather than a raised exception, but it
aborts the remaining queries for that channel: only the failing query's
command reaches the wire. -/
theorem verify_channel_accumulates (ch : ChannelConfig)
    (h1 : 1 ≤ ch.channel) (h2 : ch.channel ≤ 4)
    (hp : ch.polarity = TriggerPolarity.RISING) (hm : ch.max_current_ma ≠ 0)
    (hcur : strContains "none" (toString ch.current_ma) = false) :
    (TriggerProgrammer.verify_channel accW [] ch =
      (Except.ok ⟨ch, false, ch.label ++ " → VERIFY FAILED: " ++ joinSep "; "
        ["mode is " ++ "NORMAL" ++ ", expected TRIGGER",
         "Imax is " ++ toString (0 : Int) ++ " mA, expected " ++
           toString ch.max_current_ma ++ " mA",
         "polarity is " ++ toString (1 : Int) ++ ", expected " ++
           toString (0 : Int) ++ " (" ++ "rising" ++ ")",
         "trigger profile does not contain expected current (" ++
           toString ch.current_ma ++ " mA): '" ++ "#none" ++ "'"]⟩,
       ["?MODE " ++ toString ch.channel, "?TRIGGER " ++ toString ch.channel,
        "?TRIGP " ++ toString ch.channel])) ∧
    (∀ (w : Wire) (tr : Trace), w.isOpen = true →
      strStartsWith (pyStrip (w.resp tr.length)) "#!" = true →
      TriggerProgrammer.verify_channel w tr ch =
        (Except.ok ⟨ch, false, ch.label ++ " → VERIFY FAILED: " ++
          ("query failed: " ++ ("Controller error for '" ++
            ("?MODE " ++ toString ch.channel) ++ "': " ++ pyStrip (w.resp tr.length)))⟩,
         tr ++ ["?MODE " ++ toString ch.channel])) := by
  have hv : Protocol.validateChannel ch.channel = Except.ok () := by
    unfold Protocol.validateChannel
    rw [if_pos ⟨h1, h2⟩]
  constructor
  · have g1 : Protocol.get_mode accW [] ch.channel =
        (Except.ok Mode.NORMAL, ["?MODE " ++ toString ch.channel]) := by
      unfold Protocol.get_mode
      rw [hv]
      simp only [vseq]
      rfl
    have hq2 : Protocol.cmd accW ["?MODE " ++ toString ch.channel]
        ("?TRIGGER " ++ toString ch.channel) =
        (Except.ok "#0 1",
         ["?MODE " ++ toString ch.channel, "?TRIGGER " ++ toString ch.channel]) := rfl
    have hq3 : Protocol.cmd accW
        ["?MODE " ++ toString ch.channel, "?TRIGGER " ++ toString ch.channel]
        ("?TRIGP " ++ toString ch.channel) =
        (Except.ok "#none",
         ["?MODE " ++ toString ch.channel, "?TRIGGER " ++ toString ch.channel,
          "?TRIGP " ++ toString ch.channel]) := rfl
    have hm0 : ¬((0 : Int) = ch.max_current_ma) := fun hx => hm hx.symm
    have hsp : pySplitWs (pyReplace "#0 1" "#" "") = ["0", "1"] := rfl
    have hi0 : pyInt? "0" = some (0 : Int) := rfl
    have hi1 : pyInt? "1" = some (1 : Int) := rfl
    have hclean : pyStrip (pyReplace "#none" "#" "") = "none" := rfl
    unfold TriggerProgrammer.verify_channel TriggerProgrammer.verifyProfile
    simp only [g1, hq2, hq3, hsp, hi0, hi1, hclean, hcur, hp]
    simp only [if_pos hm0]
    rfl
  · intro w tr hopen hstart
    have hne : ¬(pyStrip (w.resp tr.length) = "") := by
      intro hx
      rw [hx] at hstart
      simp [strStartsWith, List.isPrefixOf] at hstart
    have hsend : Transport.send w tr ("?MODE " ++ toString ch.channel) =
        (Except.ok (pyStrip (w.resp tr.length)),
         tr ++ ["?MODE " ++ toString ch.channel]) := by
      unfold Transport.send
      rw [hopen]
      simp only [if_true]
      rw [if_neg hne]
    have hchk : Protocol.checkAck (pyStrip (w.resp tr.length))
        ("?MODE " ++ toString ch.channel) =
        Except.error (MErr.command ("Controller error for '" ++
          ("?MODE " ++ toString ch.channel) ++ "': " ++ pyStrip (w.resp tr.length))) := by
      unfold Protocol.checkAck
      rw [hstart]
      simp only [if_true]
    have hcmd : Protocol.cmd w tr ("?MODE " ++ toString ch.channel) =
        (Except.error (MErr.command ("Controller error for '" ++
          ("?MODE " ++ toString ch.channel) ++ "': " ++ pyStrip (w.resp tr.length))),
         tr ++ ["?MODE " ++ toString ch.channel]) := by
      unfold Protocol.cmd
      simp only [hsend, hchk]
    have g1 : Protocol.get_mode w tr ch.channel =
        (Except.error (MErr.command ("Controller error for '" ++
          ("?MODE " ++ toString ch.channel) ++ "': " ++ pyStrip (w.resp tr.length))),
         tr ++ ["?MODE " ++ toString ch.channel]) := by
      unfold Protocol.get_mode
      rw [hv]
      simp only [vseq]
      simp only [hcmd]
    unfold TriggerProgrammer.verify_channel
    simp only [g1]
    rfl

/-- C4 witness: all four mismatches accumulated into one message for the
concrete channel-1 configuration. -/
theorem verify_channel_accumulates_witness :
    TriggerProgrammer.verify_channel accW [] cfgA =
      (Except.ok ⟨cfgA, false,
        "CH1 M850L3 (850 nm) → VERIFY FAILED: mode is NORMAL, expected TRIGGER; Imax is 0 mA, expected 1200 mA; polarity is 1, expected 0 (rising); trigger profile does not contain expected current (1200 mA): '#none'"⟩,
       ["?MODE 1", "?TRIGGER 1", "?TRIGP 1"]) := by
  have h := (verify_channel_accumulates cfgA (by decide) (by decide) (by decide)
    (by decide) (by decide)).1
  rw [h]
  decide
